import Mathlib

/-
Verification of the scrypted-telemetry dashboard generator
(`src/tteck.py`, `src/plugin_api.py`) via a shallow embedding in Lean 4.

Python strings are embedded as `String`, Python sets/dicts of metric names
as `List String` (membership-only usage), the Prometheus HTTP layer as
explicit outcome values, and the stateful `ScryptedDashboardGenerator`
(`panel_id` / `current_y` counters) as explicit state passing.
-/

namespace ScryptedTelemetry

/-- Embedding of Python `s.startswith(pre)`: `pre` is a prefix of `hay`. -/
def strStarts (hay pre : String) : Bool :=
  pre.toList.isPrefixOf hay.toList

/-- Embedding of Python `needle in hay` (substring containment). -/
def strContains (hay needle : String) : Bool :=
  hay.toList.tails.any (fun t => needle.toList.isPrefixOf t)

/-- Hardware capability flags, embedding the `node.hardware` dict built by
`ScryptedDashboardGenerator._detect_hardware` (src/tteck.py:127-137). -/
structure Hardware where
  nvidia_gpu : Bool
  intel_gpu : Bool
  intel_npu : Bool
  mac : Bool
  node_exporter : Bool
  telegraf : Bool
  has_temp : Bool
  has_power : Bool
  has_process : Bool
  deriving Repr, DecidableEq

/-- The all-false flag record, embedding the empty `hardware` dict a fresh
`NodeInfo` starts with (`.get` on an empty dict is falsy). -/
def Hardware.empty : Hardware :=
  ⟨false, false, false, false, false, false, false, false, false⟩

/-- Embedding of the predicate table in `_detect_hardware`
(src/tteck.py:127-137): each flag is a pure prefix/substring predicate over
the instance's metric-name set. -/
def detectHardware (ms : List String) : Hardware :=
  { nvidia_gpu := ms.any (fun m => strStarts m "nvidia_" || strStarts m "DCGM_")
    intel_gpu := ms.any (fun m => strContains m "intel_gpu" || strContains m "igpu_")
    intel_npu := ms.contains "intel_npu_usage_percent"
    mac := ms.any (fun m => strStarts m "mac_")
    node_exporter := ms.any (fun m => strStarts m "node_")
    telegraf := ms.any (fun m => strStarts m "cpu_" || strStarts m "disk_" || strStarts m "mem_")
    has_temp := ms.any (fun m => strContains m "temp")
    has_power := ms.any (fun m => strContains m "power" || strContains m "watts")
    has_process := ms.any (fun m => strContains m "process") }

/-- C3: the derived hardware flags satisfy exactly the predicate table
(`nvidia_gpu` iff a metric starts with `nvidia_` or `DCGM_`; `intel_npu` iff
`intel_npu_usage_percent` is present; `mac` iff a metric starts with `mac_`;
`has_temp` iff a metric contains `temp`; `has_power` iff a metric contains
`power` or `watts`), and the derivation is a pure function of the metric-name
set, so re-evaluating it yields identical flags. -/
theorem c3_hardware_flag_table (ms : List String) :
    ((detectHardware ms).nvidia_gpu = true ↔
      ∃ m ∈ ms, strStarts m "nvidia_" = true ∨ strStarts m "DCGM_" = true) ∧
    ((detectHardware ms).intel_npu = true ↔ "intel_npu_usage_percent" ∈ ms) ∧
    ((detectHardware ms).mac = true ↔ ∃ m ∈ ms, strStarts m "mac_" = true) ∧
    ((detectHardware ms).has_temp = true ↔ ∃ m ∈ ms, strContains m "temp" = true) ∧
    ((detectHardware ms).has_power = true ↔
      ∃ m ∈ ms, strContains m "power" = true ∨ strContains m "watts" = true) ∧
    detectHardware ms = detectHardware ms := by
  refine ⟨?_, ?_, ?_, ?_, ?_, rfl⟩ <;>
    simp [detectHardware, List.any_eq_true]

/-- One series returned by an instant query: the `"metric"` label map of a
result item (only the labels the generator reads are relevant). -/
structure MetricItem where
  labels : List (String × String)
  deriving Repr, DecidableEq

/-- Embedding of `item.get("metric", {}).get(key, "")`. -/
def MetricItem.getLabel (it : MetricItem) (k : String) : String :=
  (it.labels.lookup k).getD ""

/-- Outcome of the HTTP exchange behind `_query_metric` (src/tteck.py:144-157):
either `requests.get` raised, or a response arrived with a status code and a
JSON body (`none` models `.json()` raising, `some` carries the decoded
`status` field and `data.result` list). -/
inductive QueryOutcome where
  | netFail (msg : String)
  | resp (code : Nat) (body : Option (String × List MetricItem))
  deriving Repr, DecidableEq

/-- Embedding of `_query_metric` (src/tteck.py:144-157): returns the result
list only on a 200 response whose decoded body has `status == "success"`;
every other outcome (including a raised exception, caught by the bare
`except`) yields `none`. -/
def queryMetric (o : QueryOutcome) : Option (List MetricItem) :=
  match o with
  | .netFail _ => none
  | .resp code body =>
    if code = 200 then
      match body with
      | some b => if b.1 = "success" then some b.2 else none
      | none => none
    else none

/-- The sample list a caller of `_query_metric` iterates over: Python's
truthiness check `if result:` treats `None` and `[]` identically. -/
def resultSamples (r : Option (List MetricItem)) : List MetricItem :=
  r.getD []

/-- Outcome of the label-values request in `_discover_metrics`
(src/tteck.py:64-72): raised, or a response with a code and an optionally
decodable `data` list of metric names. -/
inductive CatalogOutcome where
  | netFail (msg : String)
  | resp (code : Nat) (data : Option (List String))
  deriving Repr, DecidableEq

/-- Embedding of `_discover_metrics` (src/tteck.py:64-72): `all_metrics`
starts empty and is assigned only on a 200 response whose body decodes; any
exception is caught and leaves the catalog empty. -/
def discoverMetrics (o : CatalogOutcome) : List String :=
  match o with
  | .netFail _ => []
  | .resp code data =>
    if code = 200 then
      match data with
      | some ds => ds
      | none => []
    else []

/-- A query outcome that is a network failure, an undecodable body, a
non-200 status code, or a non-`success` envelope status. -/
def queryFailure (o : QueryOutcome) : Prop :=
  (∃ msg, o = .netFail msg) ∨
  (∃ c, o = .resp c none) ∨
  (∃ c b, o = .resp c b ∧ c ≠ 200) ∨
  (∃ c b, o = .resp c (some b) ∧ b.1 ≠ "success")

/-- A catalog outcome that is a network failure, a non-200 status code, or an
undecodable body. -/
def catalogFailure (o : CatalogOutcome) : Prop :=
  (∃ msg, o = .netFail msg) ∨
  (∃ c d, o = .resp c d ∧ c ≠ 200) ∨
  (∃ c, o = .resp c none)

/-- C4: on every upstream failure (network error, decode exception, non-200
or non-success response), `_query_metric` yields no sample results and no
exception escapes (the embedding is total, mirroring the bare `except`), and
`_discover_metrics` leaves the metric catalog empty rather than raising. -/
theorem c4_query_failure_yields_empty :
    (∀ o : QueryOutcome, queryFailure o →
      queryMetric o = none ∧ resultSamples (queryMetric o) = []) ∧
    (∀ o : CatalogOutcome, catalogFailure o → discoverMetrics o = []) := by
  constructor
  · intro o ho
    have : queryMetric o = none := by
      rcases ho with ⟨msg, rfl⟩ | ⟨c, rfl⟩ | ⟨c, b, rfl, hc⟩ | ⟨c, b, rfl, hb⟩
      · rfl
      · simp [queryMetric]
      · simp [queryMetric, hc]
      · simp only [queryMetric]
        split
        · simp [hb]
        · rfl
    exact ⟨this, by simp [this, resultSamples]⟩
  · intro o ho
    rcases ho with ⟨msg, rfl⟩ | ⟨c, d, rfl, hc⟩ | ⟨c, rfl⟩
    · rfl
    · simp [discoverMetrics, hc]
    · simp [discoverMetrics]

/-- Witness for C4 at concrete failing outcomes. -/
theorem c4_query_failure_yields_empty_witness :
    queryMetric (.netFail "connection refused") = none ∧
    discoverMetrics (.resp 500 (some ["node_load1"])) = [] :=
  ⟨(c4_query_failure_yields_empty.1 (.netFail "connection refused")
      (Or.inl ⟨"connection refused", rfl⟩)).1,
   c4_query_failure_yields_empty.2 (.resp 500 (some ["node_load1"]))
      (Or.inr (Or.inl ⟨500, some ["node_load1"], rfl, by decide⟩))⟩

/-- Embedding of the `NodeInfo` dataclass (src/tteck.py:17-24); `metrics` is
the per-instance metric-name set, `hardware` the derived flag record. -/
structure NodeInfo where
  hostname : String
  ip : String
  port : String
  metrics : List String
  hardware : Hardware
  deriving Repr, DecidableEq

/-- Discovery state the dashboard build runs against: the metric catalog
(`all_metrics`), the insertion-ordered instance → node mapping (`nodes`, a
Python dict embedded as an association list), and the instant-query oracle
standing for the live Prometheus answers `_query_metric` would receive. -/
structure Discovery where
  all_metrics : List String
  nodes : List (String × NodeInfo)
  query : String → Option (List MetricItem)

/-- Embedding of the f-string `metric{instance="<inst>"}` selector used
throughout the target builders. -/
def instSel (metric inst : String) : String :=
  metric ++ "\x7binstance=\"" ++ inst ++ "\"\x7d"

/-- CPU formula from `cpu_usage_idle` (src/tteck.py:496). -/
def cpuIdleExpr (inst : String) : String :=
  "100 - cpu_usage_idle\x7bcpu=\"cpu-total\",instance=\"" ++ inst ++ "\"\x7d"

/-- CPU formula from `node_cpu_seconds_total` (src/tteck.py:501). -/
def cpuRateExpr (inst : String) : String :=
  "100 - (avg by(instance) (rate(node_cpu_seconds_total\x7bmode=\"idle\",instance=\""
    ++ inst ++ "\"\x7d[5m])) * 100)"

/-- CPU formula averaging Mac performance/efficiency cores (src/tteck.py:506). -/
def macCpuExpr (inst : String) : String :=
  "(mac_pcpu_usage_percent\x7binstance=\"" ++ inst
    ++ "\"\x7d + mac_ecpu_usage_percent\x7binstance=\"" ++ inst ++ "\"\x7d) / 2"

/-- Memory percent-used formula from node-exporter gauges (src/tteck.py:516). -/
def memPercentExpr (inst : String) : String :=
  "(1 - (node_memory_MemAvailable_bytes\x7binstance=\"" ++ inst
    ++ "\"\x7d / node_memory_MemTotal_bytes\x7binstance=\"" ++ inst ++ "\"\x7d)) * 100"

/-- One Grafana query target: the PromQL expression plus the optional
`legendFormat` / `format` fields the generator sets. -/
structure Target where
  expr : String
  legendFormat : Option String
  format : Option String
  deriving Repr, DecidableEq

/-- The loop body of `_build_cpu_targets` (src/tteck.py:493-508): an
if/elif/elif chain appending at most one CPU target per node. -/
def cpuTargetStep (acc : List Target) (p : String × NodeInfo) : List Target :=
  let inst := p.1
  let node := p.2
  if node.metrics.contains "cpu_usage_idle" then
    acc ++ [⟨cpuIdleExpr inst, some (node.hostname ++ " CPU"), none⟩]
  else if node.metrics.contains "node_cpu_seconds_total" then
    acc ++ [⟨cpuRateExpr inst, some (node.hostname ++ " CPU"), none⟩]
  else if node.hardware.mac && node.metrics.contains "mac_pcpu_usage_percent" then
    acc ++ [⟨macCpuExpr inst, some (node.hostname ++ " Mac CPU"), none⟩]
  else acc

/-- Embedding of `_build_cpu_targets` (src/tteck.py:491-509). -/
def buildCpuTargets (nodes : List (String × NodeInfo)) : List Target :=
  nodes.foldl cpuTargetStep []

/-- Embedding of `_build_memory_targets` (src/tteck.py:511-524). -/
def buildMemoryTargets (nodes : List (String × NodeInfo)) : List Target :=
  nodes.foldl (fun acc p =>
    let inst := p.1
    let node := p.2
    if node.metrics.contains "node_memory_MemAvailable_bytes" then
      acc ++ [⟨memPercentExpr inst, some (node.hostname ++ " Memory"), none⟩]
    else if node.metrics.contains "mem_used_percent" then
      acc ++ [⟨instSel "mem_used_percent" inst, some (node.hostname ++ " Memory"), none⟩]
    else acc) []

/-- Embedding of `_build_temperature_targets` (src/tteck.py:456-469). -/
def buildTemperatureTargets (nodes : List (String × NodeInfo)) : List Target :=
  nodes.foldl (fun acc p =>
    let inst := p.1
    let node := p.2
    let acc1 :=
      if node.metrics.contains "node_hwmon_temp_celsius" then
        acc ++ [⟨"node_hwmon_temp_celsius\x7binstance=\"" ++ inst ++ "\",sensor=\"temp1\"\x7d",
                 some (node.hostname ++ " CPU"), none⟩]
      else acc
    if node.metrics.contains "mac_cpu_temperature_celsius" then
      acc1 ++ [⟨instSel "mac_cpu_temperature_celsius" inst, some (node.hostname ++ " Mac CPU"), none⟩]
    else acc1) []

/-- Embedding of `_build_power_targets` (src/tteck.py:471-489). -/
def buildPowerTargets (nodes : List (String × NodeInfo)) : List Target :=
  nodes.foldl (fun acc p =>
    let inst := p.1
    let node := p.2
    let acc1 :=
      if node.metrics.contains "mac_cpu_power_watts" then
        acc ++ [⟨instSel "mac_cpu_power_watts" inst, some (node.hostname ++ " CPU Power"), none⟩]
      else acc
    let acc2 :=
      if node.metrics.contains "mac_gpu_power_watts" then
        acc1 ++ [⟨instSel "mac_gpu_power_watts" inst, some (node.hostname ++ " GPU Power"), none⟩]
      else acc1
    if node.metrics.contains "mac_ane_power_watts" then
      acc2 ++ [⟨instSel "mac_ane_power_watts" inst, some (node.hostname ++ " ANE Power"), none⟩]
    else acc2) []

/-- Embedding of `_build_gpu_targets` logic inlined in `_add_gpu_panels`
(src/tteck.py:288-332): per node, NVIDIA / Intel GPU / Intel NPU / Mac
targets are appended in order. -/
def buildGpuTargets (d : Discovery) : List Target :=
  d.nodes.foldl (fun acc p =>
    let inst := p.1
    let node := p.2
    let acc1 :=
      if node.hardware.nvidia_gpu && node.metrics.contains "DCGM_FI_DEV_GPU_UTIL" then
        acc ++ [⟨instSel "DCGM_FI_DEV_GPU_UTIL" inst, some (node.hostname ++ " NVIDIA GPU"), none⟩]
      else acc
    let acc2 :=
      if node.hardware.intel_gpu then
        let intelMetrics := node.metrics.filter
          (fun m => strContains m "igpu_engines" || strContains m "intel_gpu")
        if intelMetrics.isEmpty then acc1
        else
          acc1 ++ [⟨"max by (instance) ("
                     ++ String.intercalate " or " ((intelMetrics.take 4).map (fun m => instSel m inst))
                     ++ ")",
                    some (node.hostname ++ " Intel GPU"), none⟩]
      else acc1
    let acc3 :=
      if node.hardware.intel_npu then
        acc2 ++ [⟨instSel "intel_npu_usage_percent" inst, some (node.hostname ++ " Intel NPU"), none⟩]
      else acc2
    let acc4 :=
      if node.hardware.mac && node.metrics.contains "mac_gpu_usage_percent" then
        acc3 ++ [⟨instSel "mac_gpu_usage_percent" inst, some (node.hostname ++ " Mac GPU"), none⟩]
      else acc3
    if node.hardware.mac && node.metrics.contains "mac_ane_usage_percent" then
      acc4 ++ [⟨instSel "mac_ane_usage_percent" inst, some (node.hostname ++ " Neural Engine"), none⟩]
    else acc4) []

/-- Embedding of `_build_disk_io_targets` (src/tteck.py:526-544): for each
node exposing `diskio_read_bytes`, one read and one write rate target per
non-loop disk name found by the instant query. -/
def buildDiskIoTargets (d : Discovery) : List Target :=
  d.nodes.foldl (fun acc p =>
    let inst := p.1
    let node := p.2
    if node.metrics.contains "diskio_read_bytes" then
      match d.query (instSel "diskio_read_bytes" inst) with
      | some items =>
        if items.isEmpty then acc
        else
          items.foldl (fun acc2 item =>
            let diskName := item.getLabel "name"
            if diskName == "" then acc2
            else if strStarts diskName "loop" then acc2
            else
              acc2 ++ [⟨"rate(diskio_read_bytes\x7binstance=\"" ++ inst ++ "\",name=\""
                          ++ diskName ++ "\"\x7d[5m])",
                        some (node.hostname ++ " " ++ diskName ++ " Read"), none⟩,
                       ⟨"rate(diskio_write_bytes\x7binstance=\"" ++ inst ++ "\",name=\""
                          ++ diskName ++ "\"\x7d[5m])",
                        some (node.hostname ++ " " ++ diskName ++ " Write"), none⟩]) acc
      | none => acc
    else acc) []

/-- Embedding of `_build_disk_usage_targets` (src/tteck.py:546-560),
including the final cap to 6 series. -/
def buildDiskUsageTargets (d : Discovery) : List Target :=
  (d.nodes.foldl (fun acc p =>
    let inst := p.1
    let node := p.2
    if node.metrics.contains "node_filesystem_size_bytes" then
      match d.query ("node_filesystem_size_bytes\x7binstance=\"" ++ inst
                      ++ "\",fstype!=\"tmpfs\"\x7d") with
      | some items =>
        if items.isEmpty then acc
        else
          items.foldl (fun acc2 item =>
            let mount := item.getLabel "mountpoint"
            if mount == "" then acc2
            else if ["/", "/home", "/var", "/mnt"].contains mount then
              acc2 ++ [⟨"(1 - node_filesystem_avail_bytes\x7binstance=\"" ++ inst
                          ++ "\",mountpoint=\"" ++ mount
                          ++ "\"\x7d / node_filesystem_size_bytes\x7binstance=\"" ++ inst
                          ++ "\",mountpoint=\"" ++ mount ++ "\"\x7d) * 100",
                        some (node.hostname ++ " " ++ mount), none⟩]
            else acc2) acc
      | none => acc
    else acc) []).take 6

/-- Embedding of `_build_network_targets` (src/tteck.py:562-581): per node,
the first query item with a device not starting in `lo`/`docker`/`veth`
contributes an RX and a TX rate target, then the loop breaks. -/
def buildNetworkTargets (d : Discovery) : List Target :=
  d.nodes.foldl (fun acc p =>
    let inst := p.1
    let node := p.2
    if node.metrics.contains "node_network_receive_bytes_total" then
      match d.query (instSel "node_network_receive_bytes_total" inst) with
      | some items =>
        if items.isEmpty then acc
        else
          match items.find? (fun item =>
              let dev := item.getLabel "device"
              !(dev == "") && !(strStarts dev "lo") && !(strStarts dev "docker")
                && !(strStarts dev "veth")) with
          | some item =>
            let dev := item.getLabel "device"
            acc ++ [⟨"rate(node_network_receive_bytes_total\x7binstance=\"" ++ inst
                       ++ "\",device=\"" ++ dev ++ "\"\x7d[5m])",
                     some (node.hostname ++ " " ++ dev ++ " RX"), none⟩,
                    ⟨"rate(node_network_transmit_bytes_total\x7binstance=\"" ++ inst
                       ++ "\",device=\"" ++ dev ++ "\"\x7d[5m])",
                     some (node.hostname ++ " " ++ dev ++ " TX"), none⟩]
          | none => acc
      | none => acc
    else acc) []

/-- Embedding of `_build_process_targets` (src/tteck.py:583-588): two fixed
top-K table queries, independent of discovery. -/
def buildProcessTargets : List Target :=
  [⟨"topk(10, top_process_cpu_percent)", none, some "table"⟩,
   ⟨"topk(10, top_process_memory_percent)", none, some "table"⟩]

/-- Grid position of a panel, embedding `gridPos = {h, w, x, y}`. -/
structure GridPos where
  h : Nat
  w : Nat
  x : Nat
  y : Nat
  deriving Repr, DecidableEq

/-- One dashboard panel (row separators included, as in the source, where a
row is a panel of `"type": "row"`); only the claim-relevant fields of the
JSON object are embedded. -/
structure Panel where
  id : Nat
  title : String
  ptype : String
  gridPos : GridPos
  targets : List Target
  deriving Repr, DecidableEq

/-- Mutable counters of `ScryptedDashboardGenerator`: `self.panel_id`
(initially 1) and `self.current_y` (initially 0), threaded explicitly. -/
structure GenState where
  panel_id : Nat
  current_y : Nat
  deriving Repr, DecidableEq

/-- Embedding of `_cpu_panel_template` (src/tteck.py:591-612): emits a panel
carrying the current `panel_id` and, unlike the other templates, does NOT
advance the counter. -/
def cpuPanelTemplate (s : GenState) (title : String) (targets : List Target)
    (gp : GridPos) : Panel × GenState :=
  ({ id := s.panel_id, title := title, ptype := "timeseries", gridPos := gp,
     targets := targets }, s)

/-- Embedding of `_gpu_panel_template` (src/tteck.py:614-617), which
delegates to `_cpu_panel_template`. -/
def gpuPanelTemplate (s : GenState) (title : String) (targets : List Target)
    (gp : GridPos) : Panel × GenState :=
  cpuPanelTemplate s title targets gp

/-- Embedding of `_memory_panel_template` (src/tteck.py:619-620), which
delegates to `_cpu_panel_template`. -/
def memoryPanelTemplate (s : GenState) (title : String) (targets : List Target)
    (gp : GridPos) : Panel × GenState :=
  cpuPanelTemplate s title targets gp

/-- Embedding of `_temperature_panel_template` (src/tteck.py:622-648):
`self.panel_id += 1` first, then the panel uses `self.panel_id - 1`. -/
def temperaturePanelTemplate (s : GenState) (title : String) (targets : List Target)
    (gp : GridPos) : Panel × GenState :=
  let s2 : GenState := { s with panel_id := s.panel_id + 1 }
  ({ id := s2.panel_id - 1, title := title, ptype := "bargauge", gridPos := gp,
     targets := targets }, s2)

/-- Embedding of `_power_panel_template` (src/tteck.py:650-675). -/
def powerPanelTemplate (s : GenState) (title : String) (targets : List Target)
    (gp : GridPos) : Panel × GenState :=
  let s2 : GenState := { s with panel_id := s.panel_id + 1 }
  ({ id := s2.panel_id - 1, title := title, ptype := "bargauge", gridPos := gp,
     targets := targets }, s2)

/-- Embedding of `_disk_panel_template` (src/tteck.py:677-703). -/
def diskPanelTemplate (s : GenState) (title : String) (targets : List Target)
    (gp : GridPos) : Panel × GenState :=
  let s2 : GenState := { s with panel_id := s.panel_id + 1 }
  ({ id := s2.panel_id - 1, title := title, ptype := "timeseries", gridPos := gp,
     targets := targets }, s2)

/-- Embedding of `_network_panel_template` (src/tteck.py:705-713), which
delegates to `_disk_panel_template` (changing only field overrides). -/
def networkPanelTemplate (s : GenState) (title : String) (targets : List Target)
    (gp : GridPos) : Panel × GenState :=
  diskPanelTemplate s title targets gp

/-- Embedding of `_process_panel_template` (src/tteck.py:715-730). -/
def processPanelTemplate (s : GenState) (title : String) (targets : List Target)
    (gp : GridPos) : Panel × GenState :=
  let s2 : GenState := { s with panel_id := s.panel_id + 1 }
  ({ id := s2.panel_id - 1, title := title, ptype := "table", gridPos := gp,
     targets := targets }, s2)

/-- Embedding of `_add_row` (src/tteck.py:219-230): appends a height-1,
full-width row separator at the cursor, then advances both counters. -/
def addRow (db : List Panel) (s : GenState) (title : String) : List Panel × GenState :=
  (db ++ [{ id := s.panel_id, title := title, ptype := "row",
            gridPos := { h := 1, w := 24, x := 0, y := s.current_y }, targets := [] }],
   { panel_id := s.panel_id + 1, current_y := s.current_y + 1 })

/-- Embedding of `_has_any_gpu` (src/tteck.py:428-435). -/
def hasAnyGpu (d : Discovery) : Bool :=
  d.nodes.any (fun p =>
    p.2.hardware.nvidia_gpu || p.2.hardware.intel_gpu || p.2.hardware.intel_npu ||
    (p.2.hardware.mac && p.2.metrics.contains "mac_gpu_usage_percent"))

/-- Embedding of `_has_temperature` (src/tteck.py:437-438). -/
def hasTemperature (d : Discovery) : Bool :=
  d.nodes.any (fun p => p.2.hardware.has_temp)

/-- Embedding of `_has_power` (src/tteck.py:440-441). -/
def hasPower (d : Discovery) : Bool :=
  d.nodes.any (fun p => p.2.hardware.has_power)

/-- Embedding of `_has_npu` (src/tteck.py:443-444). -/
def hasNpu (d : Discovery) : Bool :=
  d.nodes.any (fun p => p.2.hardware.intel_npu)

/-- Embedding of `_has_disk_metrics` (src/tteck.py:446-447), a check over the
whole catalog. -/
def hasDiskMetrics (d : Discovery) : Bool :=
  d.all_metrics.any (fun m => strContains m "disk")

/-- Embedding of `_has_network_metrics` (src/tteck.py:449-450). -/
def hasNetworkMetrics (d : Discovery) : Bool :=
  d.all_metrics.any (fun m => strContains m "network" || strContains m "net_")

/-- Embedding of `_has_process_metrics` (src/tteck.py:452-453). -/
def hasProcessMetrics (d : Discovery) : Bool :=
  d.nodes.any (fun p => p.2.hardware.has_process)

/-- The NPU bargauge panel built inline in `_add_overview_panels`
(src/tteck.py:262-282): uses the current `panel_id` and advances it. -/
def npuOverviewPanel (s : GenState) (gp : GridPos) : Panel × GenState :=
  ({ id := s.panel_id, title := "🧠 NPU Usage", ptype := "bargauge", gridPos := gp,
     targets := [⟨"intel_npu_usage_percent", some "Intel NPU", none⟩] },
   { s with panel_id := s.panel_id + 1 })

/-- The temperature-gauge block of `_add_overview_panels`
(src/tteck.py:238-246): starting from `x_pos = 0`, appends the gauge at x=0
and moves `x_pos` to 6 when temperature targets exist. -/
def overviewTempStep (d : Discovery) (db : List Panel) (s : GenState) :
    List Panel × GenState × Nat :=
  if hasTemperature d then
    let tt := buildTemperatureTargets d.nodes
    if tt.isEmpty then (db, s, 0)
    else
      let pr := temperaturePanelTemplate s "🌡️ Temperatures" tt
        { h := 5, w := 6, x := 0, y := s.current_y }
      (db ++ [pr.1], pr.2, 6)
  else (db, s, 0)

/-- The power-gauge block of `_add_overview_panels` (src/tteck.py:249-257):
appends the gauge at the current `x_pos` and advances it by the panel width
when power targets exist. -/
def overviewPowerStep (d : Discovery) (t : List Panel × GenState × Nat) :
    List Panel × GenState × Nat :=
  if hasPower d then
    let pt := buildPowerTargets d.nodes
    if pt.isEmpty then t
    else
      let pr := powerPanelTemplate t.2.1 "⚡ Power Usage" pt
        { h := 5, w := 6, x := t.2.2, y := t.2.1.current_y }
      (t.1 ++ [pr.1], pr.2, t.2.2 + 6)
  else t

/-- The NPU-gauge block of `_add_overview_panels` (src/tteck.py:260-283). -/
def overviewNpuStep (d : Discovery) (t : List Panel × GenState × Nat) :
    List Panel × GenState × Nat :=
  if hasNpu d then
    let pr := npuOverviewPanel t.2.1
      { h := 5, w := 6, x := t.2.2, y := t.2.1.current_y }
    (t.1 ++ [pr.1], pr.2, t.2.2 + 6)
  else t

/-- Embedding of `_add_overview_panels` (src/tteck.py:232-286): temperature,
power and NPU gauges laid out left-to-right at the current cursor row
(`x_pos` advancing by the fixed width 6), with the cursor advanced by 6 only
when at least one gauge was appended (`if x_pos > 0`). -/
def addOverviewPanels (d : Discovery) (db : List Panel) (s : GenState) :
    List Panel × GenState :=
  let t := overviewNpuStep d (overviewPowerStep d (overviewTempStep d db s))
  if 0 < t.2.2 then
    (t.1, { t.2.1 with current_y := t.2.1.current_y + 6 })
  else (t.1, t.2.1)

/-- Embedding of `_add_gpu_panels` (src/tteck.py:288-339): a single
full-width panel when any GPU targets exist, advancing the cursor by 11. -/
def addGpuPanels (d : Discovery) (db : List Panel) (s : GenState) :
    List Panel × GenState :=
  let targets := buildGpuTargets d
  if targets.isEmpty then (db, s)
  else
    let pr := gpuPanelTemplate s "GPU & Accelerator Utilization" targets
      { h := 10, w := 24, x := 0, y := s.current_y }
    (db ++ [pr.1], { pr.2 with current_y := pr.2.current_y + 11 })

/-- Embedding of `_add_cpu_memory_panels` (src/tteck.py:341-361): CPU panel
at x=0 and memory panel at x=12 when their targets exist; the cursor advances
by 11 unconditionally. -/
def addCpuMemoryPanels (d : Discovery) (db : List Panel) (s : GenState) :
    List Panel × GenState :=
  let ct := buildCpuTargets d.nodes
  let step1 : List Panel × GenState :=
    if ct.isEmpty then (db, s)
    else
      let pr := cpuPanelTemplate s "CPU Utilization" ct
        { h := 10, w := 12, x := 0, y := s.current_y }
      (db ++ [pr.1], pr.2)
  let mt := buildMemoryTargets d.nodes
  let step2 : List Panel × GenState :=
    if mt.isEmpty then step1
    else
      let pr := memoryPanelTemplate step1.2 "Memory Usage" mt
        { h := 10, w := 12, x := 12, y := step1.2.current_y }
      (step1.1 ++ [pr.1], pr.2)
  (step2.1, { step2.2 with current_y := step2.2.current_y + 11 })

/-- The disk-usage bargauge panel built inline in `_add_disk_panels`
(src/tteck.py:377-401): uses the current `panel_id` and advances it. -/
def diskUsagePanel (s : GenState) (targets : List Target) (gp : GridPos) :
    Panel × GenState :=
  ({ id := s.panel_id, title := "📊 Disk Usage", ptype := "bargauge", gridPos := gp,
     targets := targets }, { s with panel_id := s.panel_id + 1 })

/-- Embedding of `_add_disk_panels` (src/tteck.py:363-403): disk I/O panel at
x=0 and disk-usage bargauge at x=12 when their targets exist; the cursor
advances by 11 unconditionally. -/
def addDiskPanels (d : Discovery) (db : List Panel) (s : GenState) :
    List Panel × GenState :=
  let io := buildDiskIoTargets d
  let step1 : List Panel × GenState :=
    if io.isEmpty then (db, s)
    else
      let pr := diskPanelTemplate s "💾 Disk I/O" io
        { h := 10, w := 12, x := 0, y := s.current_y }
      (db ++ [pr.1], pr.2)
  let ut := buildDiskUsageTargets d
  let step2 : List Panel × GenState :=
    if ut.isEmpty then step1
    else
      let pr := diskUsagePanel step1.2 ut
        { h := 10, w := 12, x := 12, y := step1.2.current_y }
      (step1.1 ++ [pr.1], pr.2)
  (step2.1, { step2.2 with current_y := step2.2.current_y + 11 })

/-- Embedding of `_add_network_panels` (src/tteck.py:405-414): one full-width
panel when network targets exist; the cursor advances by 11 only then. -/
def addNetworkPanels (d : Discovery) (db : List Panel) (s : GenState) :
    List Panel × GenState :=
  let nt := buildNetworkTargets d
  if nt.isEmpty then (db, s)
  else
    let pr := networkPanelTemplate s "🌐 Network Traffic" nt
      { h := 10, w := 24, x := 0, y := s.current_y }
    (db ++ [pr.1], { pr.2 with current_y := pr.2.current_y + 11 })

/-- Embedding of `_add_process_panels` (src/tteck.py:416-425): one full-width
table panel when process targets exist (they always do); the cursor advances
by 13 only then. -/
def addProcessPanels (db : List Panel) (s : GenState) : List Panel × GenState :=
  let pt := buildProcessTargets
  if pt.isEmpty then (db, s)
  else
    let pr := processPanelTemplate s "🔥 Top Processes" pt
      { h := 12, w := 24, x := 0, y := s.current_y }
    (db ++ [pr.1], { pr.2 with current_y := pr.2.current_y + 13 })

/-- The conditional GPU block of `_build_smart_dashboard`
(src/tteck.py:192-195): row plus GPU panels when `_has_any_gpu`. -/
def gpuSection (d : Discovery) (r : List Panel × GenState) : List Panel × GenState :=
  if hasAnyGpu d then
    let ra := addRow r.1 r.2 "🚀 GPU & Accelerators"
    addGpuPanels d ra.1 ra.2
  else r

/-- The conditional storage block of `_build_smart_dashboard`
(src/tteck.py:201-204). -/
def diskSection (d : Discovery) (r : List Panel × GenState) : List Panel × GenState :=
  if hasDiskMetrics d then
    let ra := addRow r.1 r.2 "💾 Storage"
    addDiskPanels d ra.1 ra.2
  else r

/-- The conditional network block of `_build_smart_dashboard`
(src/tteck.py:206-209). -/
def networkSection (d : Discovery) (r : List Panel × GenState) : List Panel × GenState :=
  if hasNetworkMetrics d then
    let ra := addRow r.1 r.2 "🌐 Network"
    addNetworkPanels d ra.1 ra.2
  else r

/-- The conditional process block of `_build_smart_dashboard`
(src/tteck.py:211-214). -/
def processSection (d : Discovery) (r : List Panel × GenState) : List Panel × GenState :=
  if hasProcessMetrics d then
    let ra := addRow r.1 r.2 "📊 Processes"
    addProcessPanels ra.1 ra.2
  else r

/-- Embedding of `_build_smart_dashboard` (src/tteck.py:159-217): the panel
list of the assembled dashboard document together with the final counter
state; section order is fixed, starting from `panel_id = 1`, `current_y = 0`. -/
def buildSmartDashboard (d : Discovery) : List Panel × GenState :=
  let r1 := addRow [] { panel_id := 1, current_y := 0 } "🎯 System Overview"
  let r2 := addOverviewPanels d r1.1 r1.2
  let r3 := gpuSection d r2
  let r4 := addRow r3.1 r3.2 "💻 CPU & Memory"
  let r5 := addCpuMemoryPanels d r4.1 r4.2
  let r6 := diskSection d r5
  let r7 := networkSection d r6
  let r8 := processSection d r7
  r8

/-- The metric catalog of the end-to-end scenario of C6. -/
def catalog06 : List String :=
  ["node_cpu_seconds_total", "node_memory_MemAvailable_bytes", "node_memory_MemTotal_bytes"]

/-- The single node of the C6 scenario: instance `10.0.0.5:9100`, whose
per-instance metric set is the whole catalog and whose hardware flags are the
ones discovery derives from it. -/
def node06 : NodeInfo :=
  { hostname := "10.0.0.5", ip := "10.0.0.5", port := "9100",
    metrics := catalog06, hardware := detectHardware catalog06 }

/-- The discovery state of the C6 scenario (no instant-query results are
needed: no disk/network metrics are present). -/
def scenario06 : Discovery :=
  { all_metrics := catalog06, nodes := [("10.0.0.5:9100", node06)],
    query := fun _ => none }

/-- C6: on the catalog `{node_cpu_seconds_total, node_memory_MemAvailable_bytes,
node_memory_MemTotal_bytes}` with the single node `10.0.0.5:9100`, assembly
produces exactly four panels in order — the Overview row separator (with no
overview content panels), the `CPU & Memory` row separator, the CPU panel with
the rate-based formula, and the memory panel with the percent-used formula —
and no GPU, storage, network, or process rows or panels. -/
theorem c6_end_to_end_scenario :
    (buildSmartDashboard scenario06).1 =
      [{ id := 1, title := "🎯 System Overview", ptype := "row",
         gridPos := { h := 1, w := 24, x := 0, y := 0 }, targets := [] },
       { id := 2, title := "💻 CPU & Memory", ptype := "row",
         gridPos := { h := 1, w := 24, x := 0, y := 1 }, targets := [] },
       { id := 3, title := "CPU Utilization", ptype := "timeseries",
         gridPos := { h := 10, w := 12, x := 0, y := 2 },
         targets := [⟨cpuRateExpr "10.0.0.5:9100", some "10.0.0.5 CPU", none⟩] },
       { id := 3, title := "Memory Usage", ptype := "timeseries",
         gridPos := { h := 10, w := 12, x := 12, y := 2 },
         targets := [⟨memPercentExpr "10.0.0.5:9100", some "10.0.0.5 Memory", none⟩] }] ∧
    (buildSmartDashboard scenario06).1.all
      (fun p => !(strContains p.title "GPU") && !(strContains p.title "Storage")
        && !(strContains p.title "Network") && !(strContains p.title "Process")) = true := by
  constructor
  · rfl
  · decide

/-- C1 (failing input): on the C6 scenario, the CPU panel and the memory
panel are both appended with id 3 (`_cpu_panel_template` never advances
`panel_id`), so the appended panels' ids are `[1, 2, 3, 3]` — not strictly
increasing: a later panel's id is not greater than an earlier one's. -/
theorem c1_panel_id_collision :
    (buildSmartDashboard scenario06).1.map Panel.id = [1, 2, 3, 3] ∧
    ¬ ((buildSmartDashboard scenario06).1.map Panel.id).Pairwise (· < ·) := by
  have h : (buildSmartDashboard scenario06).1.map Panel.id = [1, 2, 3, 3] := rfl
  exact ⟨h, by rw [h]; decide⟩

/-- Specification-side chooser, written from the words of C5: at most one
CPU query formula per node, picked by the stated priority order —
`cpu_usage_idle` gauge first, then the `node_cpu_seconds_total` rate formula,
then the Mac performance/efficiency-core average, else nothing. -/
def cpuTargetSpecChoice (inst : String) (node : NodeInfo) : Option Target :=
  if node.metrics.contains "cpu_usage_idle" then
    some ⟨cpuIdleExpr inst, some (node.hostname ++ " CPU"), none⟩
  else if node.metrics.contains "node_cpu_seconds_total" then
    some ⟨cpuRateExpr inst, some (node.hostname ++ " CPU"), none⟩
  else if node.hardware.mac && node.metrics.contains "mac_pcpu_usage_percent" then
    some ⟨macCpuExpr inst, some (node.hostname ++ " Mac CPU"), none⟩
  else none

/-- Each loop iteration of `_build_cpu_targets` appends exactly the
spec-side choice for that node (empty when the choice is `none`). -/
theorem cpuTargetStep_eq (acc : List Target) (p : String × NodeInfo) :
    cpuTargetStep acc p = acc ++ (cpuTargetSpecChoice p.1 p.2).toList := by
  unfold cpuTargetStep cpuTargetSpecChoice
  split_ifs <;> simp_all

/-- Folding the loop body from any accumulator appends the per-node choices
in node order. -/
theorem foldl_cpuTargetStep (nodes : List (String × NodeInfo)) :
    ∀ acc : List Target,
      nodes.foldl cpuTargetStep acc =
        acc ++ nodes.filterMap (fun p => cpuTargetSpecChoice p.1 p.2) := by
  induction nodes with
  | nil => simp
  | cons p rest ih =>
    intro acc
    rw [List.foldl_cons, ih, cpuTargetStep_eq]
    cases h : cpuTargetSpecChoice p.1 p.2 <;> simp [List.filterMap_cons, h]

/-- C5: the CPU-utilization target builder emits exactly one query formula
per node, chosen by the priority order of `cpuTargetSpecChoice` (idle gauge,
else rate-based formula, else Mac core average, else no target), in node
order. -/
theorem c5_cpu_target_priority (nodes : List (String × NodeInfo)) :
    buildCpuTargets nodes = nodes.filterMap (fun p => cpuTargetSpecChoice p.1 p.2) := by
  simpa using foldl_cpuTargetStep nodes []

/-- The category toggles of the `/generate` endpoint's options
(src/plugin_api.py:132-141); all default to true. -/
structure GenOptions where
  include_gpu : Bool
  include_processes : Bool
  include_disk : Bool
  include_network : Bool
  deriving Repr, DecidableEq

/-- Keep-predicate of the GPU filter in `generate` (src/plugin_api.py:158-160). -/
def keepOnGpu (p : Panel) : Bool :=
  !(strContains p.title "GPU") && !(strContains p.title "Accelerator")

/-- Keep-predicate of the processes filter (src/plugin_api.py:162-164). -/
def keepOnProcesses (p : Panel) : Bool :=
  !(strContains p.title "Process")

/-- Keep-predicate of the disk filter (src/plugin_api.py:166-168). -/
def keepOnDisk (p : Panel) : Bool :=
  !(strContains p.title "Disk") && !(strContains p.title "Storage")

/-- Keep-predicate of the network filter (src/plugin_api.py:170-172). -/
def keepOnNetwork (p : Panel) : Bool :=
  !(strContains p.title "Network")

/-- Embedding of the post-hoc panel filtering of `generate`
(src/plugin_api.py:157-172): each disabled category re-filters the already
built panel list by title keywords, in the fixed order gpu → processes →
disk → network. -/
def filterPanels (o : GenOptions) (panels : List Panel) : List Panel :=
  let p1 := if o.include_gpu then panels else panels.filter keepOnGpu
  let p2 := if o.include_processes then p1 else p1.filter keepOnProcesses
  let p3 := if o.include_disk then p2 else p2.filter keepOnDisk
  let p4 := if o.include_network then p3 else p3.filter keepOnNetwork
  p4

/-- Combined keep-predicate: a panel survives `filterPanels` iff every
disabled category's keep-predicate holds for it. -/
def optionsKeep (o : GenOptions) (p : Panel) : Bool :=
  (o.include_gpu || keepOnGpu p) && (o.include_processes || keepOnProcesses p)
    && (o.include_disk || keepOnDisk p) && (o.include_network || keepOnNetwork p)

/-- A filter by the same predicate is a no-op the second time. -/
theorem filter_self_idem {α : Type} (f : α → Bool) (l : List α) :
    (l.filter f).filter f = l.filter f := by
  induction l with
  | nil => rfl
  | cons a t ih => by_cases h : f a <;> simp [List.filter_cons, h, ih]

/-- The sequential option filters collapse to one filter by the combined
keep-predicate. -/
theorem filterPanels_eq_filter (o : GenOptions) (l : List Panel) :
    filterPanels o l = l.filter (optionsKeep o) := by
  obtain ⟨g, pr, dk, nw⟩ := o
  cases g <;> cases pr <;> cases dk <;> cases nw <;>
    simp only [filterPanels, List.filter_filter, if_true, if_false, Bool.false_eq_true,
      ite_true, ite_false] <;>
    first
    | (symm
       rw [List.filter_eq_self]
       intro a _
       simp [optionsKeep])
    | (refine List.filter_congr ?_
       intro a _
       simp only [optionsKeep, Bool.false_or, Bool.true_or, Bool.true_and, Bool.and_true]
       try (cases keepOnGpu a <;> cases keepOnProcesses a <;> cases keepOnDisk a <;>
         cases keepOnNetwork a <;> rfl))

/-- The option set `include_gpu=false` with everything else enabled. -/
def gpuOffOptions : GenOptions :=
  { include_gpu := false, include_processes := true, include_disk := true,
    include_network := true }

/-- C7: `generate` with `include_gpu=false` removes exactly the panels whose
title contains `GPU` or `Accelerator` (membership characterization over the
assembled list), and re-applying the option filter to an already-filtered
panel list leaves it unchanged, for every option combination. -/
theorem c7_filtering_idempotent :
    (∀ (panels : List Panel) (p : Panel),
      p ∈ filterPanels gpuOffOptions panels ↔
        p ∈ panels ∧
          ¬(strContains p.title "GPU" = true ∨ strContains p.title "Accelerator" = true)) ∧
    (∀ (o : GenOptions) (panels : List Panel),
      filterPanels o (filterPanels o panels) = filterPanels o panels) := by
  constructor
  · intro panels p
    rw [filterPanels_eq_filter, List.mem_filter]
    simp [optionsKeep, gpuOffOptions, keepOnGpu, keepOnProcesses, keepOnDisk,
      keepOnNetwork, not_or]
  · intro o panels
    rw [filterPanels_eq_filter, filterPanels_eq_filter, filter_self_idem]

/-- A dashboard JSON value in an `/import` request, embedded as its field
map; Python truthiness of a dict is non-emptiness. -/
structure Dash where
  fields : List (String × String)
  deriving Repr, DecidableEq

/-- Python truthiness of `data.get('api_key')`: present and non-empty. -/
def strTruthy : Option String → Bool
  | none => false
  | some s => !(s == "")

/-- Python truthiness of `data.get('dashboard')`: present and non-empty. -/
def dashTruthy : Option Dash → Bool
  | none => false
  | some dsh => !dsh.fields.isEmpty

/-- The outbound `requests.post` the import handler issues to Grafana. -/
structure ForwardedRequest where
  url : String
  authHeader : String
  contentType : String
  payload : Dash
  deriving Repr, DecidableEq

/-- The HTTP response the facade handler returns. -/
structure ApiResponse where
  http_status : Nat
  body_status : String
  body_error : Option String
  deriving Repr, DecidableEq

/-- Grafana's reply to the forwarded import request: the post raised, or a
response with a status code came back. -/
inductive GrafanaReply where
  | netFail (msg : String)
  | resp (code : Nat)
  deriving Repr, DecidableEq

/-- Embedding of the `/import` handler `import_to_grafana`
(src/plugin_api.py:188-244): returns the outbound request (if any was made)
together with the facade response. `if not api_key` / `if not dashboard`
gate on Python truthiness and answer 400 without posting; otherwise the
dashboard is posted to `<grafana_url>/api/dashboards/db` with a
`Bearer <api_key>` Authorization header. -/
def importToGrafana (grafana_url : String) (api_key : Option String)
    (dashboard : Option Dash) (grafana : GrafanaReply) :
    Option ForwardedRequest × ApiResponse :=
  if !(strTruthy api_key) then
    (none, { http_status := 400, body_status := "error",
             body_error := some "API key required for import" })
  else if !(dashTruthy dashboard) then
    (none, { http_status := 400, body_status := "error",
             body_error := some "Dashboard JSON required" })
  else
    let fwd : ForwardedRequest :=
      { url := grafana_url ++ "/api/dashboards/db",
        authHeader := "Bearer " ++ api_key.getD "",
        contentType := "application/json",
        payload := dashboard.getD ⟨[]⟩ }
    match grafana with
    | .netFail msg =>
      (some fwd, { http_status := 500, body_status := "error", body_error := some msg })
    | .resp code =>
      if code = 200 then
        (some fwd, { http_status := 200, body_status := "success", body_error := none })
      else
        (some fwd, { http_status := 500, body_status := "error",
                     body_error := some ("Grafana returned " ++ toString code) })

/-- C8 (counterexample): a request in which both fields are present — the
`api_key` field carries the empty string, the `dashboard` field a non-empty
dashboard — is rejected with HTTP 400 and nothing is forwarded to Grafana,
whereas the claim states that whenever both fields are present the dashboard
is forwarded. -/
theorem c8_empty_api_key_not_forwarded :
    (some "" : Option String).isSome = true ∧
    (some (⟨[("uid", "scrypted-auto")]⟩ : Dash)).isSome = true ∧
    (importToGrafana "http://localhost:3000" (some "")
        (some ⟨[("uid", "scrypted-auto")]⟩) (.resp 200)).1 = none ∧
    (importToGrafana "http://localhost:3000" (some "")
        (some ⟨[("uid", "scrypted-auto")]⟩) (.resp 200)).2 =
      { http_status := 400, body_status := "error",
        body_error := some "API key required for import" } := by
  refine ⟨rfl, rfl, rfl, rfl⟩

/-- C8 (amended): if the `api_key` or the `dashboard` field is absent or
empty (Python-falsy), the import fails with an HTTP 400 response whose
status is `error` and no request is forwarded to Grafana; when both are
present and non-empty, the dashboard is forwarded to the dashboard-import
endpoint with a bearer-token Authorization header. -/
theorem c8_import_requires_truthy_fields
    (u : String) (key : Option String) (dsh : Option Dash) (g : GrafanaReply) :
    ((strTruthy key && dashTruthy dsh) = false →
      (importToGrafana u key dsh g).1 = none ∧
      (importToGrafana u key dsh g).2.http_status = 400 ∧
      (importToGrafana u key dsh g).2.body_status = "error") ∧
    ((strTruthy key && dashTruthy dsh) = true →
      (importToGrafana u key dsh g).1 =
        some { url := u ++ "/api/dashboards/db",
               authHeader := "Bearer " ++ key.getD "",
               contentType := "application/json",
               payload := dsh.getD ⟨[]⟩ }) := by
  constructor
  · intro h
    rcases Bool.and_eq_false_iff.mp h with hk | hd
    · simp [importToGrafana, hk]
    · by_cases hk : strTruthy key
      · simp [importToGrafana, hk, hd]
      · rw [Bool.not_eq_true] at hk
        simp [importToGrafana, hk]
  · intro h
    have hk := (Bool.and_eq_true (strTruthy key) (dashTruthy dsh)).mp h
    rcases g with msg | code
    · simp [importToGrafana, hk.1, hk.2]
    · by_cases hc : code = 200 <;> simp [importToGrafana, hk.1, hk.2, hc]

/-- Witness for C8 (amended) at concrete requests: a request missing the
API key is answered 400 without forwarding, and a complete request is
forwarded with the bearer header. -/
theorem c8_import_requires_truthy_fields_witness :
    ((importToGrafana "http://g" none (some ⟨[("uid", "x")]⟩) (.resp 200)).1 = none ∧
     (importToGrafana "http://g" none (some ⟨[("uid", "x")]⟩) (.resp 200)).2.http_status = 400 ∧
     (importToGrafana "http://g" none (some ⟨[("uid", "x")]⟩) (.resp 200)).2.body_status
       = "error") ∧
    (importToGrafana "http://g" (some "k") (some ⟨[("uid", "x")]⟩) (.resp 200)).1 =
      some { url := "http://g" ++ "/api/dashboards/db",
             authHeader := "Bearer " ++ (some "k").getD "",
             contentType := "application/json",
             payload := (some (⟨[("uid", "x")]⟩ : Dash)).getD ⟨[]⟩ } :=
  ⟨(c8_import_requires_truthy_fields "http://g" none (some ⟨[("uid", "x")]⟩)
      (.resp 200)).1 (by decide),
   (c8_import_requires_truthy_fields "http://g" (some "k") (some ⟨[("uid", "x")]⟩)
      (.resp 200)).2 (by decide)⟩

/-- Outcome of one `requests.get` health check in `validate_setup`: a
response with a status code, or a raised exception with its message. -/
inductive HealthOutcome where
  | resp (code : Nat)
  | exc (msg : String)
  deriving Repr, DecidableEq

/-- Outcome of the metric-listing request in the exporter scan of
`validate_setup` (src/plugin_api.py:291-317). -/
inductive MetricsOutcome where
  | resp (code : Nat) (data : List String)
  | exc (msg : String)
  deriving Repr, DecidableEq

/-- status / issues / recommendations produced by one health-check block of
`validate_setup` (src/plugin_api.py:263-287). -/
structure CheckResult where
  status : String
  issues : List String
  recs : List String
  deriving Repr, DecidableEq

/-- Embedding of one try/except health-check block of `validate_setup`:
200 ⇒ `healthy`; other codes ⇒ `unhealthy` with an issue; an exception ⇒
`unreachable` with the exception text and the given install hint appended to
the recommendations. -/
def healthCheck (o : HealthOutcome) (installHint : String) : CheckResult :=
  match o with
  | .resp code =>
    if code = 200 then ⟨"healthy", [], []⟩
    else ⟨"unhealthy", ["Health check returned " ++ toString code], []⟩
  | .exc msg => ⟨"unreachable", [msg], [installHint]⟩

/-- The Prometheus install recommendation (src/plugin_api.py:274). -/
def promInstallHint : String :=
  "Install and start Prometheus: docker run -p 9090:9090 prom/prometheus"

/-- The Grafana install recommendation (src/plugin_api.py:287). -/
def grafanaInstallHint : String :=
  "Install and start Grafana: docker run -p 3000:3000 grafana/grafana"

/-- found / missing exporters, recommendations and extra Prometheus issues
produced by the exporter scan of `validate_setup`. -/
structure ExporterScan where
  found : List String
  missing : List String
  recs : List String
  issues : List String
  deriving Repr, DecidableEq

/-- Embedding of the exporter scan of `validate_setup`
(src/plugin_api.py:291-317), run only when Prometheus is healthy. -/
def scanExporters (o : MetricsOutcome) : ExporterScan :=
  match o with
  | .resp code data =>
    if code = 200 then
      let hasNode := data.any (fun m => strStarts m "node_")
      let found0 := if hasNode then ["node-exporter"] else []
      let missing0 := if hasNode then [] else ["node-exporter"]
      let recs0 := if hasNode then [] else ["Install node-exporter for system metrics"]
      let found1 := found0 ++
        (if data.any (fun m => strStarts m "nvidia_" || strStarts m "DCGM_")
         then ["nvidia-exporter"] else [])
      let found2 := found1 ++
        (if data.any (fun m => strStarts m "intel_npu_") then ["intel-npu-exporter"] else [])
      let found3 := found2 ++
        (if data.any (fun m => strStarts m "mac_") then ["mac-exporter"] else [])
      let recs1 := recs0 ++
        (if found3.isEmpty then ["No exporters found - run the setup script to install them"]
         else [])
      ⟨found3, missing0, recs1, []⟩
    else ⟨[], [], [], []⟩
  | .exc msg => ⟨[], [], [], ["Could not query metrics: " ++ msg]⟩

/-- The validation payload assembled by `validate_setup`
(src/plugin_api.py:246-329). -/
structure Validation where
  prometheus_status : String
  prometheus_issues : List String
  grafana_status : String
  grafana_issues : List String
  exporters_found : List String
  exporters_missing : List String
  recommendations : List String
  ready : Bool
  message : String
  deriving Repr, DecidableEq

/-- Embedding of `validate_setup` (src/plugin_api.py:246-329): independent
Prometheus and Grafana health checks, the exporter scan when Prometheus is
healthy, and the overall readiness verdict requiring both systems healthy
and at least one exporter found. -/
def validateSetup (prom graf : HealthOutcome) (metricsOutcome : MetricsOutcome) :
    Validation :=
  let pc := healthCheck prom promInstallHint
  let gc := healthCheck graf grafanaInstallHint
  let ex := if pc.status = "healthy" then scanExporters metricsOutcome else ⟨[], [], [], []⟩
  let ready := pc.status == "healthy" && gc.status == "healthy"
    && decide (0 < ex.found.length)
  { prometheus_status := pc.status
    prometheus_issues := pc.issues ++ ex.issues
    grafana_status := gc.status
    grafana_issues := gc.issues
    exporters_found := ex.found
    exporters_missing := ex.missing
    recommendations := pc.recs ++ gc.recs ++ ex.recs
    ready := ready
    message :=
      if ready then "System is ready for dashboard generation"
      else "Setup incomplete - check recommendations" }

/-- C9: when the Prometheus health check answers 200 and the Grafana health
check raises a connection failure, the validate result is not ready, its
grafana status is `unreachable`, and the recommendations contain the Grafana
install hint — for every exception message and every metric-scan outcome. -/
theorem c9_grafana_unreachable (msg : String) (mo : MetricsOutcome) :
    (validateSetup (.resp 200) (.exc msg) mo).ready = false ∧
    (validateSetup (.resp 200) (.exc msg) mo).grafana_status = "unreachable" ∧
    grafanaInstallHint ∈ (validateSetup (.resp 200) (.exc msg) mo).recommendations := by
  refine ⟨rfl, rfl, ?_⟩
  show grafanaInstallHint ∈ [] ++ [grafanaInstallHint] ++ _
  simp

/-- Embedding of `instance.rsplit(":", 1)` for a string containing a colon:
the part before the last colon and the part after it. -/
def rsplitColon (str : String) : String × String :=
  let cs := str.toList
  let revTail := cs.reverse.takeWhile (fun c => c != ':')
  (String.mk (cs.reverse.drop (revTail.length + 1)).reverse,
   String.mk revTail.reverse)

/-- Embedding of the per-item label read in `_get_hostname_for_ip`
(src/tteck.py:104-109): the first item carrying a `nodename` or `host`
label yields that label's value. -/
def itemHostname (items : List MetricItem) : Option String :=
  items.findSome? (fun it =>
    match it.labels.lookup "nodename" with
    | some v => some v
    | none => it.labels.lookup "host")

/-- Embedding of `_get_hostname_for_ip` (src/tteck.py:97-110): for
`node_uname_info` then `host`, when the metric is in the catalog, query it
filtered by the IP and take the first `nodename`/`host` label found. -/
def hostnameForIp (d : Discovery) (ip : String) : Option String :=
  ["node_uname_info", "host"].findSome? (fun metric =>
    if d.all_metrics.contains metric then
      match d.query (metric ++ "\x7binstance=~\".*" ++ ip ++ ".*\"\x7d") with
      | some items => if items.isEmpty then none else itemHostname items
      | none => none
    else none)

/-- Embedding of `_identify_nodes` (src/tteck.py:74-95): each instance string
containing a colon is split on the last colon into ip and port and recorded
(with resolved hostname falling back to the ip, empty metric set and empty
hardware dict); instances without a colon are skipped. -/
def identifyNodes (d : Discovery) (instances : List String) :
    List (String × NodeInfo) :=
  instances.foldl (fun acc inst =>
    if strContains inst ":" then
      let pr := rsplitColon inst
      acc ++ [(inst, { hostname := (hostnameForIp d pr.1).getD pr.1, ip := pr.1,
                       port := pr.2, metrics := [], hardware := Hardware.empty })]
    else acc) []

/-- Entries the fold of `_identify_nodes` adds on top of an accumulator all
come from instances that contain a colon. -/
theorem identifyNodes_foldl_keys (d : Discovery) (instances : List String)
    (inst : String) (h : strContains inst ":" = false) :
    ∀ acc : List (String × NodeInfo), (∀ p ∈ acc, p.1 ≠ inst) →
      ∀ p ∈ instances.foldl (fun acc2 i =>
          if strContains i ":" then
            let pr := rsplitColon i
            acc2 ++ [(i, { hostname := (hostnameForIp d pr.1).getD pr.1, ip := pr.1,
                           port := pr.2, metrics := [], hardware := Hardware.empty })]
          else acc2) acc, p.1 ≠ inst := by
  induction instances with
  | nil => intro acc hacc p hp; exact hacc p hp
  | cons i rest ih =>
    intro acc hacc p hp
    rw [List.foldl_cons] at hp
    refine ih _ ?_ p hp
    intro q hq
    by_cases hc : strContains i ":"
    · simp only [hc, if_true] at hq
      rcases List.mem_append.mp hq with hq1 | hq2
      · exact hacc q hq1
      · have : q.1 = i := by
          simp only [List.mem_singleton] at hq2
          rw [hq2]
        intro hcontra
        rw [hcontra] at this
        rw [← this] at hc
        rw [h] at hc
        exact Bool.false_ne_true hc
    · simp only [hc, if_false] at hq
      exact hacc q hq

/-- C10: an instance string without a colon gets no `NodeInfo` entry — it is
silently skipped and never appears as a key of the discovered node map. -/
theorem c10_colonless_instances_skipped (d : Discovery) (instances : List String)
    (inst : String) (h : strContains inst ":" = false) :
    (∀ p ∈ identifyNodes d instances, p.1 ≠ inst) ∧
    (identifyNodes d instances).lookup inst = none := by
  have hall : ∀ p ∈ identifyNodes d instances, p.1 ≠ inst := by
    intro p hp
    exact identifyNodes_foldl_keys d instances inst h [] (by simp) p hp
  refine ⟨hall, ?_⟩
  have hlookup : ∀ l : List (String × NodeInfo), (∀ p ∈ l, p.1 ≠ inst) →
      l.lookup inst = none := by
    intro l
    induction l with
    | nil => intro _; rfl
    | cons q rest ih =>
      intro hall2
      rcases q with ⟨k, v⟩
      have hq : k ≠ inst := hall2 (k, v) (List.mem_cons_self (k, v) rest)
      have hk : (inst == k) = false := beq_eq_false_iff_ne.mpr (fun hh => hq hh.symm)
      simp only [List.lookup, hk]
      exact ih (fun p hp => hall2 p (List.mem_cons_of_mem _ hp))
  exact hlookup _ hall

/-- Witness for C10: a colonless instance string is absent from the node
map built from a list that contains it. -/
theorem c10_colonless_instances_skipped_witness :
    strContains "localhost9100" ":" = false ∧
    (identifyNodes ⟨[], [], fun _ => none⟩
        ["localhost9100", "10.0.0.5:9100"]).lookup "localhost9100" = none :=
  ⟨by decide,
   (c10_colonless_instances_skipped ⟨[], [], fun _ => none⟩
      ["localhost9100", "10.0.0.5:9100"] "localhost9100" (by decide)).2⟩

/-- Two grid rectangles overlap when both their x-intervals and their
y-intervals intersect. -/
def Overlaps (a b : GridPos) : Prop :=
  a.x < b.x + b.w ∧ b.x < a.x + a.w ∧ a.y < b.y + b.h ∧ b.y < a.y + a.h

instance (a b : GridPos) : Decidable (Overlaps a b) := by
  unfold Overlaps
  infer_instance

/-- No two panels of the list occupy overlapping grid rectangles. -/
def NoOverlap (ps : List Panel) : Prop :=
  ps.Pairwise (fun p q => ¬ Overlaps p.gridPos q.gridPos)

/-- Every panel of the list ends (vertically) at or above row `y`. -/
def Below (ps : List Panel) (y : Nat) : Prop :=
  ∀ p ∈ ps, p.gridPos.y + p.gridPos.h ≤ y

/-- Appending a batch of mutually non-overlapping panels that all live in
the horizontal band `[y, y2)` keeps the accumulated list overlap-free and
bounded by `y2`. -/
theorem noOverlap_append (ps qs : List Panel) (y y2 : Nat)
    (hps : NoOverlap ps) (hb : Below ps y) (hy : y ≤ y2)
    (hqs : NoOverlap qs)
    (hq : ∀ p ∈ qs, y ≤ p.gridPos.y ∧ p.gridPos.y + p.gridPos.h ≤ y2) :
    NoOverlap (ps ++ qs) ∧ Below (ps ++ qs) y2 := by
  constructor
  · rw [NoOverlap, List.pairwise_append]
    refine ⟨hps, hqs, ?_⟩
    intro a ha b hb2
    have h1 : a.gridPos.y + a.gridPos.h ≤ y := hb a ha
    have h2 : y ≤ b.gridPos.y := (hq b hb2).1
    intro hov
    have h3 : b.gridPos.y < a.gridPos.y + a.gridPos.h := hov.2.2.2
    omega
  · intro p hp
    rcases List.mem_append.mp hp with h1 | h2
    · have := hb p h1
      omega
    · exact (hq p h2).2

/-- Whether `_add_overview_panels` appended at least one gauge
(its `x_pos > 0` test). -/
def overviewAdded (d : Discovery) : Bool :=
  (hasTemperature d && !(buildTemperatureTargets d.nodes).isEmpty) ||
  (hasPower d && !(buildPowerTargets d.nodes).isEmpty) ||
  hasNpu d

/-- Cursor advance of the overview block. -/
def overviewDelta (d : Discovery) : Nat :=
  if overviewAdded d then 6 else 0

/-- Cursor advance of the GPU block (row plus panel). -/
def gpuDelta (d : Discovery) : Nat :=
  if hasAnyGpu d then (if (buildGpuTargets d).isEmpty then 1 else 12) else 0

/-- Cursor advance of the storage block (row plus panels). -/
def diskDelta (d : Discovery) : Nat :=
  if hasDiskMetrics d then 12 else 0

/-- Cursor advance of the network block (row plus panel). -/
def networkDelta (d : Discovery) : Nat :=
  if hasNetworkMetrics d then (if (buildNetworkTargets d).isEmpty then 1 else 12) else 0

/-- Cursor advance of the process block (row plus panel). -/
def processDelta (d : Discovery) : Nat :=
  if hasProcessMetrics d then (if buildProcessTargets.isEmpty then 1 else 14) else 0

/-- The fixed height increments of the sections included in a given
discovery state, in assembly order, as the spec describes them: each row
separator contributes 1 and each non-empty content block its fixed height
allowance (6 for the overview gauges, 11 for GPU / CPU-memory / storage /
network blocks, 13 for the process table). -/
def sectionIncrements (d : Discovery) : List Nat :=
  [1]
  ++ (if overviewAdded d then [6] else [])
  ++ (if hasAnyGpu d then [1] ++ (if (buildGpuTargets d).isEmpty then [] else [11]) else [])
  ++ [1, 11]
  ++ (if hasDiskMetrics d then [1, 11] else [])
  ++ (if hasNetworkMetrics d then
        [1] ++ (if (buildNetworkTargets d).isEmpty then [] else [11]) else [])
  ++ (if hasProcessMetrics d then
        [1] ++ (if buildProcessTargets.isEmpty then [] else [13]) else [])

/-- `Below` is monotone in the bound. -/
theorem below_mono {ps : List Panel} {y y2 : Nat} (hb : Below ps y) (h : y ≤ y2) :
    Below ps y2 := by
  intro p hp
  have := hb p hp
  omega

/-- Invariant step for `addRow`: the row separator sits in the band
`[current_y, current_y+1)` and the cursor advances by 1. -/
theorem addRow_inv (ps : List Panel) (s : GenState) (t : String)
    (hps : NoOverlap ps) (hb : Below ps s.current_y) :
    NoOverlap (addRow ps s t).1 ∧
    Below (addRow ps s t).1 (addRow ps s t).2.current_y ∧
    (addRow ps s t).2.current_y = s.current_y + 1 := by
  have H := noOverlap_append ps
    [{ id := s.panel_id, title := t, ptype := "row",
       gridPos := { h := 1, w := 24, x := 0, y := s.current_y }, targets := [] }]
    s.current_y (s.current_y + 1) hps hb (by omega) (by simp [NoOverlap])
    (by intro p hp; simp only [List.mem_singleton] at hp; subst hp; simp)
  exact ⟨H.1, H.2, rfl⟩

/-- Invariant step for `addGpuPanels`: either nothing changes, or one
full-width panel lands in the band `[current_y, current_y+10)` and the cursor
advances by 11. -/
theorem addGpuPanels_inv (d : Discovery) (ps : List Panel) (s : GenState)
    (hps : NoOverlap ps) (hb : Below ps s.current_y) :
    NoOverlap (addGpuPanels d ps s).1 ∧
    Below (addGpuPanels d ps s).1 (addGpuPanels d ps s).2.current_y ∧
    (addGpuPanels d ps s).2.current_y
      = s.current_y + (if (buildGpuTargets d).isEmpty then 0 else 11) := by
  unfold addGpuPanels gpuPanelTemplate cpuPanelTemplate
  by_cases h : (buildGpuTargets d).isEmpty
  · simp only [h, ite_true]
    exact ⟨hps, hb, by omega⟩
  · simp only [h, ite_false]
    have H := noOverlap_append ps
      [{ id := s.panel_id, title := "GPU & Accelerator Utilization", ptype := "timeseries",
         gridPos := { h := 10, w := 24, x := 0, y := s.current_y },
         targets := buildGpuTargets d }]
      s.current_y (s.current_y + 11) hps hb (by omega) (by simp [NoOverlap])
      (by intro p hp; simp only [List.mem_singleton] at hp; subst hp; simp)
    exact ⟨H.1, H.2, rfl⟩

/-- Invariant step for `addCpuMemoryPanels`: the CPU panel (x 0..12) and the
memory panel (x 12..24) share the cursor row band `[current_y, current_y+10)`
and the cursor advances by 11 unconditionally. -/
theorem addCpuMemoryPanels_inv (d : Discovery) (ps : List Panel) (s : GenState)
    (hps : NoOverlap ps) (hb : Below ps s.current_y) :
    NoOverlap (addCpuMemoryPanels d ps s).1 ∧
    Below (addCpuMemoryPanels d ps s).1 (addCpuMemoryPanels d ps s).2.current_y ∧
    (addCpuMemoryPanels d ps s).2.current_y = s.current_y + 11 := by
  unfold addCpuMemoryPanels memoryPanelTemplate
  by_cases h1 : (buildCpuTargets d.nodes).isEmpty <;>
    by_cases h2 : (buildMemoryTargets d.nodes).isEmpty <;>
    simp [h1, h2, cpuPanelTemplate]
  · exact ⟨hps, below_mono hb (by omega)⟩
  · have H := noOverlap_append ps
      [{ id := s.panel_id, title := "Memory Usage", ptype := "timeseries",
         gridPos := { h := 10, w := 12, x := 12, y := s.current_y },
         targets := buildMemoryTargets d.nodes }]
      s.current_y (s.current_y + 11) hps hb (by omega) (by simp [NoOverlap])
      (by intro p hp; simp only [List.mem_singleton] at hp; subst hp; simp)
    exact ⟨H.1, H.2⟩
  · have H := noOverlap_append ps
      [{ id := s.panel_id, title := "CPU Utilization", ptype := "timeseries",
         gridPos := { h := 10, w := 12, x := 0, y := s.current_y },
         targets := buildCpuTargets d.nodes }]
      s.current_y (s.current_y + 11) hps hb (by omega) (by simp [NoOverlap])
      (by intro p hp; simp only [List.mem_singleton] at hp; subst hp; simp)
    exact ⟨H.1, H.2⟩
  · have H := noOverlap_append ps
      [{ id := s.panel_id, title := "CPU Utilization", ptype := "timeseries",
         gridPos := { h := 10, w := 12, x := 0, y := s.current_y },
         targets := buildCpuTargets d.nodes },
       { id := s.panel_id, title := "Memory Usage", ptype := "timeseries",
         gridPos := { h := 10, w := 12, x := 12, y := s.current_y },
         targets := buildMemoryTargets d.nodes }]
      s.current_y (s.current_y + 11) hps hb (by omega)
      (by simp [NoOverlap, Overlaps])
      (by intro p hp
          rcases List.mem_cons.mp hp with rfl | hp2
          · simp
          · simp only [List.mem_singleton] at hp2; subst hp2; simp)
    exact ⟨H.1, H.2⟩

/-- Invariant step for `addDiskPanels`: the disk I/O panel (x 0..12) and the
disk-usage bargauge (x 12..24) share the cursor row band and the cursor
advances by 11 unconditionally. -/
theorem addDiskPanels_inv (d : Discovery) (ps : List Panel) (s : GenState)
    (hps : NoOverlap ps) (hb : Below ps s.current_y) :
    NoOverlap (addDiskPanels d ps s).1 ∧
    Below (addDiskPanels d ps s).1 (addDiskPanels d ps s).2.current_y ∧
    (addDiskPanels d ps s).2.current_y = s.current_y + 11 := by
  unfold addDiskPanels
  by_cases h1 : (buildDiskIoTargets d).isEmpty <;>
    by_cases h2 : (buildDiskUsageTargets d).isEmpty <;>
    simp [h1, h2, diskPanelTemplate, diskUsagePanel]
  · exact ⟨hps, below_mono hb (by omega)⟩
  · have H := noOverlap_append ps
      [{ id := s.panel_id, title := "📊 Disk Usage", ptype := "bargauge",
         gridPos := { h := 10, w := 12, x := 12, y := s.current_y },
         targets := buildDiskUsageTargets d }]
      s.current_y (s.current_y + 11) hps hb (by omega) (by simp [NoOverlap])
      (by intro p hp; simp only [List.mem_singleton] at hp; subst hp; simp)
    exact ⟨H.1, H.2⟩
  · have H := noOverlap_append ps
      [{ id := s.panel_id, title := "💾 Disk I/O", ptype := "timeseries",
         gridPos := { h := 10, w := 12, x := 0, y := s.current_y },
         targets := buildDiskIoTargets d }]
      s.current_y (s.current_y + 11) hps hb (by omega) (by simp [NoOverlap])
      (by intro p hp; simp only [List.mem_singleton] at hp; subst hp; simp)
    exact ⟨H.1, H.2⟩
  · have H := noOverlap_append ps
      [{ id := s.panel_id, title := "💾 Disk I/O", ptype := "timeseries",
         gridPos := { h := 10, w := 12, x := 0, y := s.current_y },
         targets := buildDiskIoTargets d },
       { id := s.panel_id + 1, title := "📊 Disk Usage", ptype := "bargauge",
         gridPos := { h := 10, w := 12, x := 12, y := s.current_y },
         targets := buildDiskUsageTargets d }]
      s.current_y (s.current_y + 11) hps hb (by omega)
      (by simp [NoOverlap, Overlaps])
      (by intro p hp
          rcases List.mem_cons.mp hp with rfl | hp2
          · simp
          · simp only [List.mem_singleton] at hp2; subst hp2; simp)
    exact ⟨H.1, H.2⟩

/-- Invariant step for `addNetworkPanels`: either nothing changes, or one
full-width panel lands in the cursor row band and the cursor advances by 11. -/
theorem addNetworkPanels_inv (d : Discovery) (ps : List Panel) (s : GenState)
    (hps : NoOverlap ps) (hb : Below ps s.current_y) :
    NoOverlap (addNetworkPanels d ps s).1 ∧
    Below (addNetworkPanels d ps s).1 (addNetworkPanels d ps s).2.current_y ∧
    (addNetworkPanels d ps s).2.current_y
      = s.current_y + (if (buildNetworkTargets d).isEmpty then 0 else 11) := by
  unfold addNetworkPanels networkPanelTemplate diskPanelTemplate
  by_cases h : (buildNetworkTargets d).isEmpty
  · simp only [h, ite_true]
    exact ⟨hps, hb, by omega⟩
  · simp only [h, ite_false]
    have H := noOverlap_append ps
      [{ id := s.panel_id + 1 - 1, title := "🌐 Network Traffic", ptype := "timeseries",
         gridPos := { h := 10, w := 24, x := 0, y := s.current_y },
         targets := buildNetworkTargets d }]
      s.current_y (s.current_y + 11) hps hb (by omega) (by simp [NoOverlap])
      (by intro p hp; simp only [List.mem_singleton] at hp; subst hp; simp)
    exact ⟨H.1, H.2, rfl⟩

/-- Invariant step for `addProcessPanels`: one full-width table panel in the
band `[current_y, current_y+12)` and a cursor advance of 13 (the fixed
process targets are never empty). -/
theorem addProcessPanels_inv (ps : List Panel) (s : GenState)
    (hps : NoOverlap ps) (hb : Below ps s.current_y) :
    NoOverlap (addProcessPanels ps s).1 ∧
    Below (addProcessPanels ps s).1 (addProcessPanels ps s).2.current_y ∧
    (addProcessPanels ps s).2.current_y
      = s.current_y + (if buildProcessTargets.isEmpty then 0 else 13) := by
  unfold addProcessPanels processPanelTemplate
  have h : buildProcessTargets.isEmpty = false := rfl
  simp only [h, ite_false, Bool.false_eq_true]
  have H := noOverlap_append ps
    [{ id := s.panel_id + 1 - 1, title := "🔥 Top Processes", ptype := "table",
       gridPos := { h := 12, w := 24, x := 0, y := s.current_y },
       targets := buildProcessTargets }]
    s.current_y (s.current_y + 13) hps hb (by omega) (by simp [NoOverlap])
    (by intro p hp; simp only [List.mem_singleton] at hp; subst hp; simp)
  exact ⟨H.1, H.2, trivial⟩

/-- Invariant step for the conditional GPU block. -/
theorem gpuSection_inv (d : Discovery) (r : List Panel × GenState)
    (hps : NoOverlap r.1) (hb : Below r.1 r.2.current_y) :
    NoOverlap (gpuSection d r).1 ∧
    Below (gpuSection d r).1 (gpuSection d r).2.current_y ∧
    (gpuSection d r).2.current_y = r.2.current_y + gpuDelta d := by
  unfold gpuSection
  by_cases h : hasAnyGpu d
  · simp only [h, ite_true]
    obtain ⟨h1, h2, h3⟩ := addRow_inv r.1 r.2 "🚀 GPU & Accelerators" hps hb
    obtain ⟨g1, g2, g3⟩ := addGpuPanels_inv d (addRow r.1 r.2 "🚀 GPU & Accelerators").1
      (addRow r.1 r.2 "🚀 GPU & Accelerators").2 h1 h2
    refine ⟨g1, g2, ?_⟩
    rw [g3, h3]
    simp only [gpuDelta, h, ite_true]
    by_cases he : (buildGpuTargets d).isEmpty <;> simp [he]
  · simp only [h, ite_false]
    exact ⟨hps, hb, by simp [gpuDelta, h]⟩

/-- Invariant step for the conditional storage block. -/
theorem diskSection_inv (d : Discovery) (r : List Panel × GenState)
    (hps : NoOverlap r.1) (hb : Below r.1 r.2.current_y) :
    NoOverlap (diskSection d r).1 ∧
    Below (diskSection d r).1 (diskSection d r).2.current_y ∧
    (diskSection d r).2.current_y = r.2.current_y + diskDelta d := by
  unfold diskSection
  by_cases h : hasDiskMetrics d
  · simp only [h, ite_true]
    obtain ⟨h1, h2, h3⟩ := addRow_inv r.1 r.2 "💾 Storage" hps hb
    obtain ⟨g1, g2, g3⟩ := addDiskPanels_inv d (addRow r.1 r.2 "💾 Storage").1
      (addRow r.1 r.2 "💾 Storage").2 h1 h2
    refine ⟨g1, g2, ?_⟩
    rw [g3, h3]
    simp only [diskDelta, h, ite_true]
  · simp only [h, ite_false]
    exact ⟨hps, hb, by simp [diskDelta, h]⟩

/-- Invariant step for the conditional network block. -/
theorem networkSection_inv (d : Discovery) (r : List Panel × GenState)
    (hps : NoOverlap r.1) (hb : Below r.1 r.2.current_y) :
    NoOverlap (networkSection d r).1 ∧
    Below (networkSection d r).1 (networkSection d r).2.current_y ∧
    (networkSection d r).2.current_y = r.2.current_y + networkDelta d := by
  unfold networkSection
  by_cases h : hasNetworkMetrics d
  · simp only [h, ite_true]
    obtain ⟨h1, h2, h3⟩ := addRow_inv r.1 r.2 "🌐 Network" hps hb
    obtain ⟨g1, g2, g3⟩ := addNetworkPanels_inv d (addRow r.1 r.2 "🌐 Network").1
      (addRow r.1 r.2 "🌐 Network").2 h1 h2
    refine ⟨g1, g2, ?_⟩
    rw [g3, h3]
    simp only [networkDelta, h, ite_true]
    by_cases he : (buildNetworkTargets d).isEmpty <;> simp [he]
  · simp only [h, ite_false]
    exact ⟨hps, hb, by simp [networkDelta, h]⟩

/-- Invariant step for the conditional process block. -/
theorem processSection_inv (d : Discovery) (r : List Panel × GenState)
    (hps : NoOverlap r.1) (hb : Below r.1 r.2.current_y) :
    NoOverlap (processSection d r).1 ∧
    Below (processSection d r).1 (processSection d r).2.current_y ∧
    (processSection d r).2.current_y = r.2.current_y + processDelta d := by
  unfold processSection
  by_cases h : hasProcessMetrics d
  · simp only [h, ite_true]
    obtain ⟨h1, h2, h3⟩ := addRow_inv r.1 r.2 "📊 Processes" hps hb
    obtain ⟨g1, g2, g3⟩ := addProcessPanels_inv (addRow r.1 r.2 "📊 Processes").1
      (addRow r.1 r.2 "📊 Processes").2 h1 h2
    refine ⟨g1, g2, ?_⟩
    rw [g3, h3]
    simp only [processDelta, h, ite_true]
    have he : buildProcessTargets.isEmpty = false := rfl
    simp [he]
  · simp only [h, ite_false]
    exact ⟨hps, hb, by simp [processDelta, h]⟩

/-- During the overview block, every panel either lay below the cursor row
already or is one of the freshly appended gauges: height-5, sitting at the
cursor row, ending left of the running `x_pos`. -/
def OvBand (cy x : Nat) (ps2 : List Panel) : Prop :=
  ∀ p ∈ ps2, p.gridPos.y + p.gridPos.h ≤ cy ∨
    (cy ≤ p.gridPos.y ∧ p.gridPos.y + p.gridPos.h ≤ cy + 5 ∧ p.gridPos.x + p.gridPos.w ≤ x)

/-- Appending a width-6 gauge at the running `x_pos` preserves overlap
freedom and the overview band. -/
theorem ovStep (cy x : Nat) (ps2 : List Panel) (q : Panel)
    (hps : NoOverlap ps2) (hband : OvBand cy x ps2)
    (hqy : q.gridPos.y = cy) (hqh : q.gridPos.h = 5)
    (hqx : q.gridPos.x = x) (hqw : q.gridPos.w = 6) :
    NoOverlap (ps2 ++ [q]) ∧ OvBand cy (x + 6) (ps2 ++ [q]) := by
  constructor
  · rw [NoOverlap, List.pairwise_append]
    refine ⟨hps, by simp [NoOverlap], ?_⟩
    intro a ha b hbq
    simp only [List.mem_singleton] at hbq
    subst hbq
    intro hov
    obtain ⟨ho1, ho2, ho3, ho4⟩ := hov
    rcases hband a ha with hold | hb2
    · omega
    · omega
  · intro p hp
    rcases List.mem_append.mp hp with h1 | h2
    · rcases hband p h1 with hold | hb2
      · exact Or.inl hold
      · exact Or.inr ⟨hb2.1, hb2.2.1, by omega⟩
    · simp only [List.mem_singleton] at h2
      subst h2
      exact Or.inr ⟨by omega, by omega, by omega⟩

/-- Running invariant of the overview block: the list is overlap-free and
banded, the cursor is untouched, a zero `x_pos` means nothing happened yet
(and the disjunction `c` of the conditions seen so far is false), and a
positive `x_pos` means the overview block did append a gauge. -/
def OvInv (d : Discovery) (ps : List Panel) (s : GenState) (c : Bool)
    (t : List Panel × GenState × Nat) : Prop :=
  NoOverlap t.1 ∧ OvBand s.current_y t.2.2 t.1 ∧ t.2.1.current_y = s.current_y ∧
  (t.2.2 = 0 → t.1 = ps ∧ t.2.1 = s ∧ c = false) ∧
  (0 < t.2.2 → overviewAdded d = true)

/-- The temperature block establishes the overview invariant. -/
theorem overviewTempStep_inv (d : Discovery) (ps : List Panel) (s : GenState)
    (hps : NoOverlap ps) (hb : Below ps s.current_y) :
    OvInv d ps s (hasTemperature d && !(buildTemperatureTargets d.nodes).isEmpty)
      (overviewTempStep d ps s) := by
  have hband0 : OvBand s.current_y 0 ps := fun p hp => Or.inl (hb p hp)
  unfold overviewTempStep
  by_cases h1 : hasTemperature d
  · by_cases h2 : (buildTemperatureTargets d.nodes).isEmpty
    · simp only [h1, h2, ite_true]
      exact ⟨hps, hband0, rfl, fun _ => ⟨rfl, rfl, by simp [h1, h2]⟩,
             fun hx => absurd hx (by simp)⟩
    · simp only [h1, h2, ite_true, ite_false, Bool.false_eq_true]
      have H := ovStep s.current_y 0 ps
        (temperaturePanelTemplate s "🌡️ Temperatures" (buildTemperatureTargets d.nodes)
          { h := 5, w := 6, x := 0, y := s.current_y }).1
        hps hband0 rfl rfl rfl rfl
      exact ⟨H.1, by simpa using H.2, rfl, fun hz => by simp at hz,
             fun _ => by simp [overviewAdded, h1, h2]⟩
  · simp only [h1, ite_false, Bool.false_eq_true]
    exact ⟨hps, hband0, rfl, fun _ => ⟨rfl, rfl, by simp [h1]⟩,
           fun hx => absurd hx (by simp)⟩

/-- The power block preserves the overview invariant. -/
theorem overviewPowerStep_inv (d : Discovery) (ps : List Panel) (s : GenState)
    (c : Bool) (t : List Panel × GenState × Nat) (hinv : OvInv d ps s c t) :
    OvInv d ps s (c || (hasPower d && !(buildPowerTargets d.nodes).isEmpty))
      (overviewPowerStep d t) := by
  obtain ⟨hno, hband, hy, hzero, hpos⟩ := hinv
  unfold overviewPowerStep
  by_cases h1 : hasPower d
  · by_cases h2 : (buildPowerTargets d.nodes).isEmpty
    · simp only [h1, h2, ite_true, Bool.not_true, Bool.and_false, Bool.or_false]
      exact ⟨hno, hband, hy, hzero, hpos⟩
    · simp only [h1, h2, ite_true, ite_false, Bool.false_eq_true]
      have H := ovStep s.current_y t.2.2 t.1
        (powerPanelTemplate t.2.1 "⚡ Power Usage" (buildPowerTargets d.nodes)
          { h := 5, w := 6, x := t.2.2, y := t.2.1.current_y }).1
        hno hband (by simpa [powerPanelTemplate] using hy) rfl rfl rfl
      exact ⟨H.1, H.2, hy, fun hz => by simp at hz,
             fun _ => by simp [overviewAdded, h1, h2]⟩
  · simp only [h1, Bool.false_eq_true, ite_false, Bool.false_and, Bool.or_false]
    exact ⟨hno, hband, hy, hzero, hpos⟩

/-- The NPU block preserves the overview invariant. -/
theorem overviewNpuStep_inv (d : Discovery) (ps : List Panel) (s : GenState)
    (c : Bool) (t : List Panel × GenState × Nat) (hinv : OvInv d ps s c t) :
    OvInv d ps s (c || hasNpu d) (overviewNpuStep d t) := by
  obtain ⟨hno, hband, hy, hzero, hpos⟩ := hinv
  unfold overviewNpuStep
  by_cases h1 : hasNpu d
  · simp only [h1, ite_true]
    have H := ovStep s.current_y t.2.2 t.1
      (npuOverviewPanel t.2.1 { h := 5, w := 6, x := t.2.2, y := t.2.1.current_y }).1
      hno hband (by simpa [npuOverviewPanel] using hy) rfl rfl rfl
    exact ⟨H.1, H.2, hy, fun hz => by simp at hz,
           fun _ => by simp [overviewAdded, h1]⟩
  · simp only [h1, Bool.false_eq_true, ite_false, Bool.or_false]
    exact ⟨hno, hband, hy, hzero, hpos⟩

/-- Invariant step for the whole overview block: no overlaps appear, every
panel stays below the new cursor, and the cursor advances by `overviewDelta`. -/
theorem addOverviewPanels_inv (d : Discovery) (ps : List Panel) (s : GenState)
    (hps : NoOverlap ps) (hb : Below ps s.current_y) :
    NoOverlap (addOverviewPanels d ps s).1 ∧
    Below (addOverviewPanels d ps s).1 (addOverviewPanels d ps s).2.current_y ∧
    (addOverviewPanels d ps s).2.current_y = s.current_y + overviewDelta d := by
  have hinv := overviewNpuStep_inv d ps s _ _
    (overviewPowerStep_inv d ps s _ _ (overviewTempStep_inv d ps s hps hb))
  obtain ⟨hno, hband, hy, hzero, hpos⟩ := hinv
  unfold addOverviewPanels
  set t := overviewNpuStep d (overviewPowerStep d (overviewTempStep d ps s)) with ht
  by_cases hx : 0 < t.2.2
  · simp only [hx, ite_true]
    have hb6 : Below t.1 (s.current_y + 6) := by
      intro p hp
      rcases hband p hp with hold | hb2
      · omega
      · omega
    refine ⟨hno, ?_, ?_⟩
    · show Below t.1 (t.2.1.current_y + 6)
      rw [hy]
      exact hb6
    · show t.2.1.current_y + 6 = s.current_y + overviewDelta d
      rw [hy, overviewDelta, hpos hx]
      simp
  · simp only [hx, ite_false]
    have hz := hzero (by omega)
    have hcfalse : overviewAdded d = false := by
      have h3 := hz.2.2
      simp only [Bool.or_eq_false_iff] at h3
      simp [overviewAdded, h3.1.1, h3.1.2, h3.2]
    refine ⟨hno, ?_, ?_⟩
    · show Below t.1 t.2.1.current_y
      rw [hz.1, hy]
      exact hb
    · show t.2.1.current_y = s.current_y + overviewDelta d
      rw [hy, overviewDelta, hcfalse]
      simp

/-- The section increment list sums to the per-block cursor deltas. -/
theorem sectionIncrements_sum (d : Discovery) :
    (sectionIncrements d).sum =
      1 + overviewDelta d + gpuDelta d + (1 + 11) + diskDelta d
        + networkDelta d + processDelta d := by
  unfold sectionIncrements overviewDelta gpuDelta diskDelta networkDelta processDelta
  split_ifs <;> simp [List.sum_append]

/-- C2: for every discovery state, no two panels of the assembled dashboard
occupy overlapping `(x, y, w, h)` grid rectangles, and the final layout
cursor `current_y` equals the sum of the included sections' fixed height
increments. -/
theorem c2_layout_and_cursor_invariant (d : Discovery) :
    NoOverlap (buildSmartDashboard d).1 ∧
    (buildSmartDashboard d).2.current_y = (sectionIncrements d).sum := by
  unfold buildSmartDashboard
  have h0 : NoOverlap ([] : List Panel) := List.Pairwise.nil
  have hb0 : Below [] ({ panel_id := 1, current_y := 0 } : GenState).current_y := by
    intro p hp
    simp at hp
  set r1 := addRow [] { panel_id := 1, current_y := 0 } "🎯 System Overview" with hr1
  obtain ⟨n1, b1, y1⟩ :=
    addRow_inv [] { panel_id := 1, current_y := 0 } "🎯 System Overview" h0 hb0
  set r2 := addOverviewPanels d r1.1 r1.2 with hr2
  obtain ⟨n2, b2, y2⟩ := addOverviewPanels_inv d r1.1 r1.2 n1 b1
  set r3 := gpuSection d r2 with hr3
  obtain ⟨n3, b3, y3⟩ := gpuSection_inv d r2 n2 b2
  set r4 := addRow r3.1 r3.2 "💻 CPU & Memory" with hr4
  obtain ⟨n4, b4, y4⟩ := addRow_inv r3.1 r3.2 "💻 CPU & Memory" n3 b3
  set r5 := addCpuMemoryPanels d r4.1 r4.2 with hr5
  obtain ⟨n5, b5, y5⟩ := addCpuMemoryPanels_inv d r4.1 r4.2 n4 b4
  set r6 := diskSection d r5 with hr6
  obtain ⟨n6, b6, y6⟩ := diskSection_inv d r5 n5 b5
  set r7 := networkSection d r6 with hr7
  obtain ⟨n7, b7, y7⟩ := networkSection_inv d r6 n6 b6
  set r8 := processSection d r7 with hr8
  obtain ⟨n8, b8, y8⟩ := processSection_inv d r7 n7 b7
  refine ⟨n8, ?_⟩
  rw [y8, y7, y6, y5, y4, y3, y2, y1, sectionIncrements_sum d]

end ScryptedTelemetry
